import Mathlib

/-!
Verification development for the OpenFDA MCP server
(`src/MCP_servers/OpenFDA-MCP-Server/build/utils/api-client.js` and the
`FDAServer` dispatcher in `src/fda-server.ts`).

The JavaScript code is shallowly embedded: JavaScript values occurring in
request parameters become the inductive `JSVal` (numbers as `Int`, with an
explicit `NaN`), objects become association lists, the network becomes an
explicit oracle function, and `throw` becomes an explicit outcome
constructor.
-/

namespace FDA

/-- A JavaScript value as it can occur in request parameter maps:
a number (modelled as `Int`; the parameters in play are integers), `NaN`,
a string, a boolean, `null`, or `undefined`. -/
inductive JSVal where
  | vNum : Int → JSVal
  | vNaN : JSVal
  | vStr : String → JSVal
  | vBool : Bool → JSVal
  | vNull : JSVal
  | vUndefined : JSVal
deriving DecidableEq, Repr

/-- JavaScript truthiness: `0`, `NaN`, `""`, `false`, `null`, `undefined`
are falsy; everything else is truthy. -/
def truthy : JSVal → Bool
  | .vNum n => n != 0
  | .vNaN => false
  | .vStr s => s != ""
  | .vBool b => b
  | .vNull => false
  | .vUndefined => false

/-- JavaScript `ToNumber` coercion; `none` models `NaN`. -/
def toNumber : JSVal → Option Int
  | .vNum n => some n
  | .vNaN => none
  | .vStr s => if s = "" then some 0 else s.toInt?
  | .vBool b => some (if b then 1 else 0)
  | .vNull => some 0
  | .vUndefined => none

/-- `Math.min(v, bound)` on a JavaScript value: coerces to number,
yielding `NaN` when the coercion does. -/
def mathMin (v : JSVal) (bound : Int) : JSVal :=
  match toNumber v with
  | some n => .vNum (min n bound)
  | none => .vNaN

/-- A JavaScript object, as an association list of key/value pairs. -/
abbrev JSObj := List (String × JSVal)

/-- Property read `o[k]`: the first binding of `k`, or `undefined`. -/
def objGet (o : JSObj) (k : String) : JSVal :=
  match o with
  | [] => .vUndefined
  | (a, b) :: t => if k = a then b else objGet t k

/-- Property write `o[k] = v`: the binding for `k` is replaced by `v`
(represented by removing any old binding and consing the new one). -/
def objSet (o : JSObj) (k : String) (v : JSVal) : JSObj :=
  (k, v) :: o.filter (fun kv => kv.1 != k)

-- FDA API configuration constants from api-client.js.

def FDA_API_BASE_URL : String := "https://api.fda.gov"

def DEFAULT_LIMIT : Int := 10

def MAX_LIMIT : Int := 100

/-- The hard-coded fallback on the right of `process.env.FDA_API_KEY || '…'`. -/
def FALLBACK_API_KEY : String := "sNQRRzbOvngzuFVbiajF6AelXY7QncaX3OKN8YQD"

/-- `const FDA_API_KEY = process.env.FDA_API_KEY || '…'`:
the environment variable (`none` when unset; the empty string is the only
falsy string) or the hard-coded fallback. -/
def FDA_API_KEY (env : Option String) : String :=
  match env with
  | some s => if s = "" then FALLBACK_API_KEY else s
  | none => FALLBACK_API_KEY

/-- `this.hasAPIKey = !!FDA_API_KEY`. -/
def hasAPIKey (env : Option String) : Bool :=
  FDA_API_KEY env != ""

/-- Lines 47–53 of `get`: `if (requestParams.limit) { requestParams.limit =
Math.min(requestParams.limit, MAX_LIMIT); } else { requestParams.limit =
DEFAULT_LIMIT; }`, as a function of the current `limit` value. -/
def ensureLimit (v : JSVal) : JSVal :=
  if truthy v then mathMin v MAX_LIMIT else .vNum DEFAULT_LIMIT

/-- Lines 54–59 of `get`: delete every key whose value is
`undefined` or `null`. -/
def removeNullUndefined (o : JSObj) : JSObj :=
  o.filter (fun kv => kv.2 != JSVal.vUndefined && kv.2 != JSVal.vNull)

/-- The parameter map of `get` before the delete loop: `params` copied,
`api_key` attached when `hasAPIKey`, then the `limit` clamp/default. -/
def assembledParams (hasKey : Bool) (apiKey : String) (params : JSObj) : JSObj :=
  let p := if hasKey then objSet params "api_key" (.vStr apiKey) else params
  objSet p "limit" (ensureLimit (objGet p "limit"))

/-- The full parameter processing of `FDAAPIClient.get` before the HTTP
call: attach `api_key`, clamp/default `limit`, remove `undefined`/`null`. -/
def prepareRequestParams (hasKey : Bool) (apiKey : String) (params : JSObj) : JSObj :=
  removeNullUndefined (assembledParams hasKey apiKey params)

/-- An axios failure, as inspected by `handleAPIError`: either a response
with a status, an optional `data.error.message` and the error `message`;
or a request with no response (network failure); or a setup error. -/
inductive AxiosFailure where
  | response : Int → Option String → String → AxiosFailure
  | request : String → AxiosFailure
  | setup : String → AxiosFailure
deriving DecidableEq, Repr

/-- JavaScript `a || b` for an optional string on the left
(`undefined` and `""` are falsy). -/
def jsOrStr (a : Option String) (b : String) : String :=
  match a with
  | some s => if s = "" then b else s
  | none => b

/-- `FDAAPIClient.handleAPIError`: every branch throws an `Error`; the
result is the thrown error's message. -/
def handleAPIError (hasKey : Bool) (e : AxiosFailure) : String :=
  match e with
  | .response status dataMsg errMsg =>
    if status = 400 then "Bad Request: " ++ jsOrStr dataMsg "Invalid search parameters"
    else if status = 404 then "No results found for the given search criteria"
    else if status = 429 then
      "Rate limit exceeded. " ++
        (if hasKey then "API key rate limits"
         else "Consider using an API key for higher limits")
    else if status = 500 then "FDA API server error. Please try again later"
    else if status = 503 then "FDA API service temporarily unavailable"
    else "FDA API error (" ++ toString status ++ "): " ++ jsOrStr dataMsg errMsg
  | .request _ => "Network error: Unable to connect to FDA API"
  | .setup msg => "Request error: " ++ msg

/-- What the upstream HTTP oracle can answer: a successful response body,
or an axios failure (handed to the response interceptor). -/
inductive HTTPResult where
  | ok : JSVal → HTTPResult
  | fail : AxiosFailure → HTTPResult
deriving DecidableEq, Repr

/-- Outcome of `FDAAPIClient.get`: the returned `response.data`, or the
message of the `Error` thrown by the interceptor's `handleAPIError`. -/
inductive GetOutcome where
  | ok : JSVal → GetOutcome
  | thrown : String → GetOutcome
deriving DecidableEq, Repr

/-- Whether a `get` outcome is a successful return. -/
def GetOutcome.isOk : GetOutcome → Bool
  | .ok _ => true
  | .thrown _ => false

/-- `FDAAPIClient.get`, with the network as an explicit oracle `http`.
Returns the outcome together with the list of HTTP requests issued
(endpoint and query parameters), so that the request count is observable.
The single `axiosInstance.get` call is the only element of that list; on
failure the interceptor's `handleAPIError` produces the thrown error and
the `catch` block rethrows it unchanged. -/
def FDAAPIClient.get (http : String → JSObj → HTTPResult) (hasKey : Bool)
    (apiKey : String) (endpoint : String) (params : JSObj) :
    GetOutcome × List (String × JSObj) :=
  let requestParams := prepareRequestParams hasKey apiKey params
  match http endpoint requestParams with
  | .ok data => (.ok data, [(endpoint, requestParams)])
  | .fail e => (.thrown (handleAPIError hasKey e), [(endpoint, requestParams)])

/-- `FDAAPIClient.buildSearchParams`: copies `search`, `count`, `limit`
(clamped to `MAX_LIMIT`) and `skip` into a fresh object when truthy. -/
def buildSearchParams (searchParams : JSObj) : JSObj :=
  let params : JSObj := []
  let params :=
    if truthy (objGet searchParams "search")
    then objSet params "search" (objGet searchParams "search") else params
  let params :=
    if truthy (objGet searchParams "count")
    then objSet params "count" (objGet searchParams "count") else params
  let params :=
    if truthy (objGet searchParams "limit")
    then objSet params "limit" (mathMin (objGet searchParams "limit") MAX_LIMIT)
    else params
  let params :=
    if truthy (objGet searchParams "skip")
    then objSet params "skip" (objGet searchParams "skip") else params
  params

end FDA

namespace FDA

/-! The `FDAServer` tool-call dispatcher (`setupToolHandlers`). -/

/-- The handler functions imported by `fda-server.ts`, one per `case`. -/
inductive HandlerId where
  | searchDrugAdverseEvents
  | searchDrugLabels
  | searchDrugNDC
  | searchDrugRecalls
  | searchDrugsFDA
  | searchDrugShortages
  | searchDevice510K
  | searchDeviceClassifications
  | searchDeviceAdverseEvents
  | searchDeviceRecalls
deriving DecidableEq, Repr

/-- The MCP error codes used by the dispatcher. -/
inductive ErrorCode where
  | methodNotFound
  | internalError
deriving DecidableEq, Repr

/-- An `McpError`: the uniform structured error envelope. -/
structure McpError where
  code : ErrorCode
  message : String
deriving DecidableEq, Repr

/-- A JavaScript thrown value as discriminated by the dispatcher's
`catch`: an `McpError`, some other `Error` (carrying a message), or a
non-`Error` value. -/
inductive ThrownValue where
  | mcp : McpError → ThrownValue
  | err : String → ThrownValue
  | other : ThrownValue
deriving DecidableEq, Repr

/-- What a tool handler invocation can do: return a result or throw. -/
inductive HandlerResult where
  | ok : JSVal → HandlerResult
  | thrown : ThrownValue → HandlerResult
deriving DecidableEq, Repr

/-- The registered tool names, in the order of the `switch` cases. -/
def registeredTools : List String :=
  ["search_drug_adverse_events", "search_drug_labels", "search_drug_ndc",
   "search_drug_recalls", "search_drugs_fda", "search_drug_shortages",
   "search_device_510k", "search_device_classifications",
   "search_device_adverse_events", "search_device_recalls"]

/-- The `switch (request.params.name)` case selection: which handler a
tool name routes to; `none` is the `default` case. -/
def dispatchHandler (name : String) : Option HandlerId :=
  if name = "search_drug_adverse_events" then some .searchDrugAdverseEvents
  else if name = "search_drug_labels" then some .searchDrugLabels
  else if name = "search_drug_ndc" then some .searchDrugNDC
  else if name = "search_drug_recalls" then some .searchDrugRecalls
  else if name = "search_drugs_fda" then some .searchDrugsFDA
  else if name = "search_drug_shortages" then some .searchDrugShortages
  else if name = "search_device_510k" then some .searchDevice510K
  else if name = "search_device_classifications" then some .searchDeviceClassifications
  else if name = "search_device_adverse_events" then some .searchDeviceAdverseEvents
  else if name = "search_device_recalls" then some .searchDeviceRecalls
  else none

/-- The body of the `try` block: run the selected handler (recording the
invocation), or throw `McpError(MethodNotFound, 'Unknown tool: …')` in the
`default` case. The second component lists the handlers invoked. -/
def runSwitch (handlers : HandlerId → JSObj → HandlerResult) (name : String)
    (args : JSObj) : HandlerResult × List HandlerId :=
  match dispatchHandler name with
  | some h => (handlers h args, [h])
  | none =>
    (.thrown (.mcp ⟨.methodNotFound, "Unknown tool: " ++ name⟩), [])

/-- What crosses the dispatcher boundary to the SDK caller: a success, an
`McpError`, or — were the `catch` missing — an uncaught thrown value. -/
inductive CallOutcome where
  | success : JSVal → CallOutcome
  | mcpError : McpError → CallOutcome
  | uncaught : ThrownValue → CallOutcome
deriving DecidableEq, Repr

/-- The dispatcher's `catch` clause: an `McpError` is rethrown unchanged;
any other `Error`'s message — or `'Unknown error occurred'` for a
non-`Error` value — is wrapped in `McpError(InternalError, …)`. -/
def catchClause : ThrownValue → McpError
  | .mcp e => e
  | .err msg => ⟨.internalError, msg⟩
  | .other => ⟨.internalError, "Unknown error occurred"⟩

/-- The whole `CallToolRequestSchema` handler: the `try` body wrapped in
the `catch` clause. Returns the outcome and the handlers invoked. -/
def callToolHandler (handlers : HandlerId → JSObj → HandlerResult)
    (name : String) (args : JSObj) : CallOutcome × List HandlerId :=
  match runSwitch handlers name args with
  | (.ok res, invoked) => (.success res, invoked)
  | (.thrown t, invoked) => (.mcpError (catchClause t), invoked)

end FDA

namespace FDA

/-! Helper lemmas about the object model. -/

theorem objGet_objSet_self (o : JSObj) (k : String) (v : JSVal) :
    objGet (objSet o k v) k = v := by
  simp [objGet, objSet]

theorem objGet_filter_key_ne (o : JSObj) (k k' : String) (h : k' ≠ k) :
    objGet (o.filter (fun kv => kv.1 != k)) k' = objGet o k' := by
  induction o with
  | nil => rfl
  | cons hd t ih =>
    obtain ⟨a, b⟩ := hd
    rw [List.filter_cons]
    by_cases hak : a = k
    · subst hak
      simp only [bne_self_eq_false, Bool.false_eq_true, if_false]
      rw [ih, objGet, if_neg h]
    · have : ((fun kv => kv.1 != k) (a, b)) = true := by simpa using hak
      simp only [this, if_true]
      by_cases hka : k' = a
      · subst hka
        rw [objGet, if_pos rfl, objGet, if_pos rfl]
      · rw [objGet, if_neg hka, objGet, if_neg hka, ih]

theorem objGet_objSet_ne (o : JSObj) (k k' : String) (v : JSVal) (h : k' ≠ k) :
    objGet (objSet o k v) k' = objGet o k' := by
  rw [objSet, objGet, if_neg h, objGet_filter_key_ne o k k' h]

theorem objGet_removeNullUndefined (o : JSObj) (k : String)
    (h1 : objGet o k ≠ .vUndefined) (h2 : objGet o k ≠ .vNull) :
    objGet (removeNullUndefined o) k = objGet o k := by
  induction o with
  | nil => rfl
  | cons hd t ih =>
    obtain ⟨a, b⟩ := hd
    rw [removeNullUndefined, List.filter_cons]
    by_cases hka : k = a
    · subst hka
      rw [objGet, if_pos rfl] at h1 h2
      have : ((fun kv => kv.2 != JSVal.vUndefined && kv.2 != JSVal.vNull) (k, b)) = true := by
        simp [h1, h2]
      simp only [this, if_true]
      rw [objGet, if_pos rfl, objGet, if_pos rfl]
    · rw [objGet, if_neg hka] at h1 h2
      have ih' := ih h1 h2
      rw [objGet, if_neg hka]
      by_cases hb : ((fun kv => kv.2 != JSVal.vUndefined && kv.2 != JSVal.vNull) (a, b)) = true
      · simp only [hb, if_true]
        rw [objGet, if_neg hka]
        rw [removeNullUndefined] at ih'
        exact ih'
      · simp only [hb, if_false]
        rw [removeNullUndefined] at ih'
        exact ih'

theorem ensureLimit_kept (v : JSVal) :
    ensureLimit v ≠ .vUndefined ∧ ensureLimit v ≠ .vNull := by
  rw [ensureLimit]
  by_cases h : truthy v = true
  · rw [if_pos h, mathMin]
    cases hn : toNumber v <;> simp
  · rw [if_neg h]
    simp

theorem prepare_limit (hasKey : Bool) (apiKey : String) (params : JSObj) :
    objGet (prepareRequestParams hasKey apiKey params) "limit"
      = ensureLimit (objGet params "limit") := by
  rw [prepareRequestParams, assembledParams]
  have hlim : objGet (if hasKey then objSet params "api_key" (.vStr apiKey) else params)
      "limit" = objGet params "limit" := by
    cases hasKey with
    | false => rfl
    | true =>
      simp only [if_true]
      exact objGet_objSet_ne params "api_key" "limit" (.vStr apiKey) (by decide)
  simp only [hlim]
  have hk := ensureLimit_kept (objGet params "limit")
  rw [objGet_removeNullUndefined _ _
        (by rw [objGet_objSet_self]; exact hk.1)
        (by rw [objGet_objSet_self]; exact hk.2),
      objGet_objSet_self]

theorem prepare_api_key (apiKey : String) (params : JSObj) :
    objGet (prepareRequestParams true apiKey params) "api_key" = .vStr apiKey := by
  rw [prepareRequestParams, assembledParams]
  simp only [if_true]
  have hset : objGet
      (objSet (objSet params "api_key" (.vStr apiKey)) "limit"
        (ensureLimit (objGet (objSet params "api_key" (.vStr apiKey)) "limit")))
      "api_key" = .vStr apiKey := by
    rw [objGet_objSet_ne _ _ _ _ (by decide), objGet_objSet_self]
  rw [objGet_removeNullUndefined _ _ (by rw [hset]; simp) (by rw [hset]; simp), hset]

theorem dispatchHandler_eq_none (name : String) (h : name ∉ registeredTools) :
    dispatchHandler name = none := by
  simp only [registeredTools, List.mem_cons, List.not_mem_nil, or_false, not_or] at h
  obtain ⟨h1, h2, h3, h4, h5, h6, h7, h8, h9, h10⟩ := h
  simp [dispatchHandler, h1, h2, h3, h4, h5, h6, h7, h8, h9, h10]

end FDA

namespace FDA

/-- Stub upstream oracle: always succeeds with a `null` body. -/
def stubOk : String → JSObj → HTTPResult := fun _ _ => .ok .vNull

/-- Stub upstream oracle: always fails with HTTP 404. -/
def stub404 : String → JSObj → HTTPResult :=
  fun _ _ => .fail (.response 404 none "Request failed with status code 404")

/-- C1: a tool-call request whose name is not one of the registered tool
names is answered directly with `McpError(MethodNotFound, 'Unknown tool: …')`
(the `InvalidTool` envelope), and no tool handler is invoked on it. -/
theorem unknownToolShortCircuits (handlers : HandlerId → JSObj → HandlerResult)
    (name : String) (args : JSObj) (h : name ∉ registeredTools) :
    callToolHandler handlers name args =
      (CallOutcome.mcpError ⟨ErrorCode.methodNotFound, "Unknown tool: " ++ name⟩, []) := by
  rw [callToolHandler, runSwitch, dispatchHandler_eq_none name h]
  rfl

/-- Witness for C1 at the spec's scenario C: calling `"delete_everything"`
yields the `MethodNotFound` envelope and invokes no handler. -/
theorem unknownToolShortCircuitsWitness :
    "delete_everything" ∉ registeredTools ∧
    callToolHandler (fun _ _ => HandlerResult.ok JSVal.vNull) "delete_everything" [] =
      (CallOutcome.mcpError ⟨ErrorCode.methodNotFound, "Unknown tool: " ++ "delete_everything"⟩,
        []) :=
  ⟨by decide,
   unknownToolShortCircuits (fun _ _ => HandlerResult.ok JSVal.vNull) "delete_everything" []
     (by decide)⟩

/-- C5: every error raised during a dispatch is caught at the dispatcher
boundary: the caller-visible outcome is never an uncaught thrown value, a
thrown `McpError` is propagated unchanged, and any other thrown `Error` is
wrapped as `McpError(InternalError, message)`. -/
theorem dispatcherUniformErrorEnvelope (handlers : HandlerId → JSObj → HandlerResult)
    (name : String) (args : JSObj) :
    (∀ t, (callToolHandler handlers name args).1 ≠ CallOutcome.uncaught t) ∧
    (∀ e, (runSwitch handlers name args).1 = HandlerResult.thrown (ThrownValue.mcp e) →
        (callToolHandler handlers name args).1 = CallOutcome.mcpError e) ∧
    (∀ msg, (runSwitch handlers name args).1 = HandlerResult.thrown (ThrownValue.err msg) →
        (callToolHandler handlers name args).1 =
          CallOutcome.mcpError ⟨ErrorCode.internalError, msg⟩) := by
  refine ⟨?_, ?_, ?_⟩
  · intro t
    rw [callToolHandler]
    rcases hrs : runSwitch handlers name args with ⟨r, invoked⟩
    cases r <;> simp
  · intro e he
    rw [callToolHandler]
    rcases hrs : runSwitch handlers name args with ⟨r, invoked⟩
    rw [hrs] at he
    have he' : r = HandlerResult.thrown (ThrownValue.mcp e) := he
    subst he'
    rfl
  · intro msg he
    rw [callToolHandler]
    rcases hrs : runSwitch handlers name args with ⟨r, invoked⟩
    rw [hrs] at he
    have he' : r = HandlerResult.thrown (ThrownValue.err msg) := he
    subst he'
    rfl

/-- Witness for C5: a handler throwing an `McpError` sees it cross the
boundary unchanged, and the outcome is never an uncaught value. -/
theorem dispatcherUniformErrorEnvelopeWitness :
    (runSwitch (fun _ _ => HandlerResult.thrown (ThrownValue.mcp ⟨ErrorCode.internalError, "boom"⟩))
        "search_drug_labels" []).1 =
      HandlerResult.thrown (ThrownValue.mcp ⟨ErrorCode.internalError, "boom"⟩) ∧
    (callToolHandler
        (fun _ _ => HandlerResult.thrown (ThrownValue.mcp ⟨ErrorCode.internalError, "boom"⟩))
        "search_drug_labels" []).1 =
      CallOutcome.mcpError ⟨ErrorCode.internalError, "boom"⟩ ∧
    (callToolHandler
        (fun _ _ => HandlerResult.thrown (ThrownValue.mcp ⟨ErrorCode.internalError, "boom"⟩))
        "search_drug_labels" []).1 ≠ CallOutcome.uncaught ThrownValue.other :=
  ⟨rfl,
   (dispatcherUniformErrorEnvelope _ "search_drug_labels" []).2.1 _ rfl,
   (dispatcherUniformErrorEnvelope _ "search_drug_labels" []).1 ThrownValue.other⟩

/-- C7: one invocation of `FDAAPIClient.get` issues exactly one upstream
HTTP request, whether the outcome is success or failure — no retry. -/
theorem getIssuesExactlyOneRequest (http : String → JSObj → HTTPResult) (hasKey : Bool)
    (apiKey endpoint : String) (params : JSObj) :
    (FDAAPIClient.get http hasKey apiKey endpoint params).2.length = 1 := by
  rcases hh : http endpoint (prepareRequestParams hasKey apiKey params) with d | e <;>
    simp [FDAAPIClient.get, hh]

/-- C8: the query parameters of the one upstream request issued by `get`
contain exactly the assembled keys whose value is neither `undefined` nor
`null`: every valueless key is omitted. -/
theorem upstreamRequestOmitsValuelessKeys (http : String → JSObj → HTTPResult)
    (hasKey : Bool) (apiKey endpoint : String) (params : JSObj)
    (ep : String) (ps : JSObj) (kv : String × JSVal)
    (h : (ep, ps) ∈ (FDAAPIClient.get http hasKey apiKey endpoint params).2) :
    kv ∈ ps ↔
      kv ∈ assembledParams hasKey apiKey params ∧
        kv.2 ≠ JSVal.vUndefined ∧ kv.2 ≠ JSVal.vNull := by
  have hps : ps = prepareRequestParams hasKey apiKey params := by
    rcases hh : http endpoint (prepareRequestParams hasKey apiKey params) with d | e <;>
      simp [FDAAPIClient.get, hh] at h <;> exact h.2
  subst hps
  rw [prepareRequestParams, removeNullUndefined]
  simp [List.mem_filter, Bool.and_eq_true, bne_iff_ne, and_assoc]

/-- Witness for C8: on a concrete request with a `null`-valued key, the
issued request retains the valued key and drops the `null` one. -/
theorem upstreamRequestOmitsValuelessKeysWitness :
    (("/drug/event.json",
        prepareRequestParams true FALLBACK_API_KEY
          [("search", JSVal.vStr "aspirin"), ("skip", JSVal.vNull)]) ∈
      (FDAAPIClient.get stubOk true FALLBACK_API_KEY "/drug/event.json"
        [("search", JSVal.vStr "aspirin"), ("skip", JSVal.vNull)]).2) ∧
    ((("skip", JSVal.vNull) ∈
        prepareRequestParams true FALLBACK_API_KEY
          [("search", JSVal.vStr "aspirin"), ("skip", JSVal.vNull)]) ↔
      (("skip", JSVal.vNull) ∈
          assembledParams true FALLBACK_API_KEY
            [("search", JSVal.vStr "aspirin"), ("skip", JSVal.vNull)]) ∧
        JSVal.vNull ≠ JSVal.vUndefined ∧ JSVal.vNull ≠ JSVal.vNull) :=
  ⟨by simp [FDAAPIClient.get, stubOk],
   upstreamRequestOmitsValuelessKeys stubOk true FALLBACK_API_KEY "/drug/event.json"
     [("search", JSVal.vStr "aspirin"), ("skip", JSVal.vNull)]
     "/drug/event.json" _ ("skip", JSVal.vNull) (by simp [FDAAPIClient.get, stubOk])⟩

end FDA

namespace FDA

/-- C2 counterexample: with an upstream stub answering HTTP 404, `get`
throws the `'No results found…'` error — the outcome is not a successful
empty result. -/
theorem http404YieldsErrorNotSuccess :
    (FDAAPIClient.get stub404 true FALLBACK_API_KEY "/drug/label.json" []).1
        = GetOutcome.thrown "No results found for the given search criteria" ∧
    ((FDAAPIClient.get stub404 true FALLBACK_API_KEY "/drug/label.json" []).1).isOk
        = false := by
  constructor <;> rfl

/-- C2 (amended): every upstream HTTP 404 response makes the client throw
an `Error` with the fixed message `'No results found for the given search
criteria'`; an error, not an empty-result success, reaches the caller. -/
theorem http404MapsToNoResultsError (http : String → JSObj → HTTPResult)
    (hasKey : Bool) (apiKey endpoint : String) (params : JSObj)
    (dataMsg : Option String) (errMsg : String)
    (h : http endpoint (prepareRequestParams hasKey apiKey params)
        = HTTPResult.fail (AxiosFailure.response 404 dataMsg errMsg)) :
    (FDAAPIClient.get http hasKey apiKey endpoint params).1
        = GetOutcome.thrown "No results found for the given search criteria" := by
  simp [FDAAPIClient.get, h, handleAPIError]

/-- Witness for the amended C2 at the concrete 404 stub. -/
theorem http404MapsToNoResultsErrorWitness :
    stub404 "/drug/label.json" (prepareRequestParams true FALLBACK_API_KEY [])
        = HTTPResult.fail (AxiosFailure.response 404 none
            "Request failed with status code 404") ∧
    (FDAAPIClient.get stub404 true FALLBACK_API_KEY "/drug/label.json" []).1
        = GetOutcome.thrown "No results found for the given search criteria" :=
  ⟨rfl,
   http404MapsToNoResultsError stub404 true FALLBACK_API_KEY "/drug/label.json" []
     none "Request failed with status code 404" rfl⟩

/-- C3 counterexample: a caller-supplied `limit` of `-5` is truthy, so it
is only upper-clamped by `Math.min` and is sent upstream as `-5`, below
the declared minimum `1`. -/
theorem negativeLimitSentBelowMinimum :
    objGet (prepareRequestParams true FALLBACK_API_KEY
        [("limit", JSVal.vNum (-5))]) "limit" = JSVal.vNum (-5) ∧
    ¬ (1 ≤ (-5 : Int)) := by
  constructor
  · rw [prepare_limit]
    decide
  · decide

/-- C3 (amended): a truthy numeric `limit` is clamped only from above:
the value sent upstream is `min n MAX_LIMIT`, which never exceeds
`MAX_LIMIT` but is not raised to the declared minimum. -/
theorem limitClampedAboveOnly (hasKey : Bool) (apiKey : String) (params : JSObj)
    (n : Int) (h0 : objGet params "limit" = JSVal.vNum n) (h1 : n ≠ 0) :
    objGet (prepareRequestParams hasKey apiKey params) "limit"
        = JSVal.vNum (min n MAX_LIMIT) ∧
    min n MAX_LIMIT ≤ MAX_LIMIT := by
  constructor
  · rw [prepare_limit, h0, ensureLimit, if_pos (by simp [truthy, h1])]
    simp [mathMin, toNumber]
  · exact min_le_right _ _

/-- Witness for the amended C3: `limit = 250` is sent as `100`. -/
theorem limitClampedAboveOnlyWitness :
    objGet [("limit", JSVal.vNum 250)] "limit" = JSVal.vNum 250 ∧ (250 : Int) ≠ 0 ∧
    (objGet (prepareRequestParams true FALLBACK_API_KEY
        [("limit", JSVal.vNum 250)]) "limit" = JSVal.vNum (min 250 MAX_LIMIT) ∧
      min (250 : Int) MAX_LIMIT ≤ MAX_LIMIT) :=
  ⟨by decide, by decide,
   limitClampedAboveOnly true FALLBACK_API_KEY [("limit", JSVal.vNum 250)] 250
     (by decide) (by decide)⟩

/-- C4 counterexample: with the `FDA_API_KEY` environment variable absent,
the `||` fallback still yields the hard-coded key, `hasAPIKey` is `true`,
and the key is attached to the outbound request — the client never sends
without a key. -/
theorem missingEnvStillAttachesKey :
    FDA_API_KEY none = FALLBACK_API_KEY ∧
    hasAPIKey none = true ∧
    objGet (prepareRequestParams (hasAPIKey none) (FDA_API_KEY none) []) "api_key"
        = JSVal.vStr FALLBACK_API_KEY := by
  refine ⟨rfl, by decide, ?_⟩
  rw [show hasAPIKey none = true from by decide,
      show FDA_API_KEY none = FALLBACK_API_KEY from rfl]
  exact prepare_api_key FALLBACK_API_KEY []

/-- C4 (amended): the key read at startup falls back to a hard-coded
string, so for every environment `hasAPIKey` is `true` and the key — the
environment value when set and non-empty, the fallback otherwise — is
attached to every outbound request; the keyless path is unreachable. -/
theorem apiKeyAlwaysAttached (env : Option String) (params : JSObj) :
    hasAPIKey env = true ∧
    objGet (prepareRequestParams (hasAPIKey env) (FDA_API_KEY env) params) "api_key"
        = JSVal.vStr (FDA_API_KEY env) := by
  have hk : hasAPIKey env = true := by
    rw [hasAPIKey]
    cases env with
    | none => decide
    | some s =>
      rw [FDA_API_KEY]
      by_cases hs : s = ""
      · rw [if_pos hs]; decide
      · rw [if_neg hs]; simpa using hs
  exact ⟨hk, by rw [hk]; exact prepare_api_key _ _⟩

/-- C6 counterexample: the error thrown for HTTP 429 is a bare message —
`'Rate limit exceeded. …'` in both key configurations — and neither
message contains the digits `429`: the upstream status is not preserved
for caller inspection. -/
theorem rateLimit429MessageOmitsStatus :
    handleAPIError true
        (AxiosFailure.response 429 none "Request failed with status code 429")
      = "Rate limit exceeded. API key rate limits" ∧
    handleAPIError false
        (AxiosFailure.response 429 none "Request failed with status code 429")
      = "Rate limit exceeded. Consider using an API key for higher limits" ∧
    ¬ ("429".toList <:+: "Rate limit exceeded. API key rate limits".toList) ∧
    ¬ ("429".toList <:+:
        "Rate limit exceeded. Consider using an API key for higher limits".toList) := by
  refine ⟨rfl, rfl, ?_, ?_⟩ <;> decide

/-- C6 (amended): every HTTP 429 response is surfaced as a thrown `Error`
whose message is the fixed rate-limit text chosen by key presence; the
message is the only caller-visible data and does not include the numeric
status. -/
theorem http429RateLimitMessage (hasKey : Bool) (dataMsg : Option String)
    (errMsg : String) :
    handleAPIError hasKey (AxiosFailure.response 429 dataMsg errMsg)
      = "Rate limit exceeded. " ++
          (if hasKey then "API key rate limits"
           else "Consider using an API key for higher limits") ∧
    ¬ ("429".toList <:+:
        (handleAPIError hasKey (AxiosFailure.response 429 dataMsg errMsg)).toList) := by
  have hmsg : handleAPIError hasKey (AxiosFailure.response 429 dataMsg errMsg)
      = "Rate limit exceeded. " ++
          (if hasKey then "API key rate limits"
           else "Consider using an API key for higher limits") := by
    cases hasKey <;> rfl
  refine ⟨hmsg, ?_⟩
  rw [hmsg]
  cases hasKey
  · decide
  · decide

/-- C9: clamping is idempotent on in-bounds values: a numeric `limit`
already in `[1, MAX_LIMIT]` is a fixed point of the clamp, the prepared
request carries it unchanged, and re-validating the prepared parameters
leaves it unchanged again. -/
theorem clampIdempotentInRange (hasKey : Bool) (apiKey : String) (params : JSObj)
    (n : Int) (h0 : objGet params "limit" = JSVal.vNum n)
    (h1 : 1 ≤ n) (h2 : n ≤ MAX_LIMIT) :
    ensureLimit (JSVal.vNum n) = JSVal.vNum n ∧
    objGet (prepareRequestParams hasKey apiKey params) "limit" = JSVal.vNum n ∧
    objGet (prepareRequestParams hasKey apiKey
        (prepareRequestParams hasKey apiKey params)) "limit" = JSVal.vNum n := by
  have hfix : ensureLimit (JSVal.vNum n) = JSVal.vNum n := by
    rw [ensureLimit, if_pos (by simp [truthy]; omega)]
    simp [mathMin, toNumber, min_eq_left h2]
  have honce : objGet (prepareRequestParams hasKey apiKey params) "limit"
      = JSVal.vNum n := by rw [prepare_limit, h0, hfix]
  exact ⟨hfix, honce, by rw [prepare_limit, honce, hfix]⟩

/-- Witness for C9 at the in-bounds value 42. -/
theorem clampIdempotentInRangeWitness :
    objGet [("limit", JSVal.vNum 42)] "limit" = JSVal.vNum 42 ∧
    (1 : Int) ≤ 42 ∧ (42 : Int) ≤ MAX_LIMIT ∧
    (ensureLimit (JSVal.vNum 42) = JSVal.vNum 42 ∧
      objGet (prepareRequestParams false "" [("limit", JSVal.vNum 42)]) "limit"
          = JSVal.vNum 42 ∧
      objGet (prepareRequestParams false ""
          (prepareRequestParams false "" [("limit", JSVal.vNum 42)])) "limit"
          = JSVal.vNum 42) :=
  ⟨by decide, by decide, by decide,
   clampIdempotentInRange false "" [("limit", JSVal.vNum 42)] 42
     (by decide) (by decide) (by decide)⟩

/-- C10: whenever the incoming `limit` is falsy — absent, `null`, `0`, or
any other falsy value — the prepared request carries the default limit 10;
in particular `0` is not clamped to the declared minimum 1. -/
theorem falsyLimitReplacedByDefault (hasKey : Bool) (apiKey : String)
    (params : JSObj) (h : truthy (objGet params "limit") = false) :
    objGet (prepareRequestParams hasKey apiKey params) "limit"
        = JSVal.vNum DEFAULT_LIMIT := by
  rw [prepare_limit, ensureLimit, if_neg (by simp [h])]

/-- Witness for C10: a caller-supplied `limit` of `0` is replaced by 10. -/
theorem falsyLimitReplacedByDefaultWitness :
    truthy (objGet [("limit", JSVal.vNum 0)] "limit") = false ∧
    objGet (prepareRequestParams true FALLBACK_API_KEY
        [("limit", JSVal.vNum 0)]) "limit" = JSVal.vNum DEFAULT_LIMIT :=
  ⟨by decide,
   falsyLimitReplacedByDefault true FALLBACK_API_KEY [("limit", JSVal.vNum 0)]
     (by decide)⟩

end FDA
